import Mathlib

/-!
Verification of the QUIC communication system's Protocol Session & Adaptive
Streaming Engine against its specification.

The Go sources are shallowly embedded: machine integers become `Int`/`Nat`
(overflow is irrelevant at the values involved; the one machine-width
constant, Go's `maxInt`, is kept explicitly), `float64` network signals
become `ℚ`, Go maps become association lists (keys are unique in the
originals, so first-match lookup and filter-delete coincide with map
semantics), buffered channels become lists bounded by their capacity, and
a handler's structured log output becomes an explicit list of messages.
-/

namespace Streaming

/-- `VideoQuality` from `internal/streaming/handler.go`: one tier of the
quality ladder. -/
structure VideoQuality where
  name : String
  width : Int
  height : Int
  bitrate : Int
  framerate : Int
deriving DecidableEq, Repr

/-- The fixed quality ladder installed by `NewHandler`. -/
def handlerQualities : List VideoQuality :=
  [ ⟨"360p", 640, 360, 500, 30⟩,
    ⟨"480p", 854, 480, 1000, 30⟩,
    ⟨"720p", 1280, 720, 2000, 30⟩,
    ⟨"1080p", 1920, 1080, 4000, 30⟩ ]

/-- The Go helper `abs` at the bottom of the streaming handler. -/
def intAbs (x : Int) : Int := if x < 0 then -x else x

/-- The per-tier test of `validateQuality`'s first loop: the tier's name
equals the requested name, or its width and height both match. -/
def qualityMatches (q requested : VideoQuality) : Bool :=
  q.name == requested.name ||
    (q.width == requested.width && q.height == requested.height)

/-- Go's `int(^uint(0) >> 1)`, the initial `minDiff` of `validateQuality`. -/
def maxInt : Int := 2 ^ 63 - 1

/-- The zero `VideoQuality` that Go's `var closest VideoQuality` starts
from in `validateQuality`. -/
def zeroQuality : VideoQuality := ⟨"", 0, 0, 0, 0⟩

/-- The second loop of `validateQuality`: fold over the ladder keeping the
tier whose bitrate difference from the requested bitrate is strictly
smaller than the best seen so far. -/
def closestLoop (reqBitrate : Int) :
    List VideoQuality → VideoQuality → Int → VideoQuality × Int
  | [], closest, minDiff => (closest, minDiff)
  | q :: rest, closest, minDiff =>
    if intAbs (q.bitrate - reqBitrate) < minDiff then
      closestLoop reqBitrate rest q (intAbs (q.bitrate - reqBitrate))
    else
      closestLoop reqBitrate rest closest minDiff

/-- `validateQuality` from `internal/streaming/handler.go`: first loop
returns the first tier matching by name or by dimensions; otherwise the
second loop picks the tier with the smallest absolute bitrate difference,
and the zero value (empty name) signals the `no suitable quality` error,
modelled as `none`. -/
def validateQuality (ladder : List VideoQuality) (requested : VideoQuality) :
    Option VideoQuality :=
  match ladder.find? (fun q => qualityMatches q requested) with
  | some q => some q
  | none =>
    let r := closestLoop requested.bitrate ladder zeroQuality maxInt
    if r.1.name == "" then none else some r.1

/-- Scan for `getDowngradedQuality`: Go walks the ladder with index `i`
and returns `ladder[i-1]` at the first `i > 0` whose name matches, so a
match at index 0 is skipped; here `prev` carries `ladder[i-1]`. -/
def downScan (current : VideoQuality) :
    VideoQuality → List VideoQuality → Option VideoQuality
  | _, [] => none
  | prev, q :: rest =>
    if q.name == current.name then some prev else downScan current q rest

/-- `getDowngradedQuality`: the tier one position lower in the ladder, or
`current` itself when no lower tier exists. -/
def getDowngradedQuality (ladder : List VideoQuality)
    (current : VideoQuality) : VideoQuality :=
  match ladder with
  | [] => current
  | q0 :: rest => (downScan current q0 rest).getD current

/-- Scan for `getUpgradedQuality`: Go returns `ladder[i+1]` at the first
matching index `i < len-1`, so a match at the last index is skipped. -/
def upScan (current : VideoQuality) :
    List VideoQuality → Option VideoQuality
  | [] => none
  | [_] => none
  | q :: next :: rest =>
    if q.name == current.name then some next else upScan current (next :: rest)

/-- `getUpgradedQuality`: the tier one position higher in the ladder, or
`current` itself when no higher tier exists. -/
def getUpgradedQuality (ladder : List VideoQuality)
    (current : VideoQuality) : VideoQuality :=
  (upScan current ladder).getD current

/-- `adaptBitrate`: one evaluation of the adaptation rule on buffer
health `b` and packet loss `l` (Go `float64`s, embedded as `ℚ`). The Go
code only writes the new quality back when its name differs from the
current one, which is replicated by the inner name tests. -/
def adaptBitrate (ladder : List VideoQuality) (current : VideoQuality)
    (b l : ℚ) : VideoQuality :=
  if b < 3/10 ∨ l > 5/100 then
    let nq := getDowngradedQuality ladder current
    if nq.name ≠ current.name then nq else current
  else if b > 8/10 ∧ l < 1/100 then
    let nq := getUpgradedQuality ladder current
    if nq.name ≠ current.name then nq else current
  else current

/-- The handler ladder as a function of the tier index. -/
def hq : Fin 4 → VideoQuality
  | 0 => ⟨"360p", 640, 360, 500, 30⟩
  | 1 => ⟨"480p", 854, 480, 1000, 30⟩
  | 2 => ⟨"720p", 1280, 720, 2000, 30⟩
  | 3 => ⟨"1080p", 1920, 1080, 4000, 30⟩

/-- `StreamStats` from `internal/streaming/handler.go` (durations and
times in nanoseconds, the float fields as `ℚ`). -/
structure StreamStats where
  streamId : String
  bytesSent : Nat
  chunksSent : Nat
  averageBitrate : ℚ
  bufferHealth : ℚ
  lastChunkTime : Int
  latency : Int
  packetLoss : ℚ
deriving DecidableEq, Repr

/-- `ActiveStream`: one active streaming session. The `quic.Stream`
handle, `context.CancelFunc` and the mutex are transport/runtime handles
with no data content and are not part of the embedded record. -/
structure ActiveStream where
  id : String
  quality : VideoQuality
  startTime : Int
  stats : StreamStats
  adaptiveBitrate : Bool
deriving DecidableEq, Repr

/-- The streaming `Handler`'s mutable state: the `activeStreams` map,
embedded as an association list with unique keys. -/
structure HandlerState where
  activeStreams : List (String × ActiveStream)
deriving DecidableEq, Repr

/-- `StopStream`: cancel and delete the session when present (`none` =
nil error), otherwise return the `stream not found` error. Go's
`delete` on a unique-key map is embedded as filtering the key out. -/
def StopStream (s : HandlerState) (streamId : String) :
    HandlerState × Option String :=
  match s.activeStreams.lookup streamId with
  | some _ => (⟨s.activeStreams.filter (fun p => p.1 != streamId)⟩, none)
  | none => (s, some ("stream not found: " ++ streamId))

/-- `GetActiveStreams`: per-session statistics snapshot keyed by id. -/
def GetActiveStreams (s : HandlerState) : List (String × StreamStats) :=
  s.activeStreams.map (fun p => (p.1, p.2.stats))

/-- `chunkDuration`: 2 seconds, in nanoseconds as set by `NewHandler`. -/
def chunkDuration : Int := 2000000000

/-- `VideoChunk` (raw data bytes as `Nat`s below 256). -/
structure VideoChunk where
  streamId : String
  sequenceNum : Nat
  timestamp : Int
  quality : VideoQuality
  data : List Nat
  size : Nat
  isKeyframe : Bool
  duration : Int
deriving DecidableEq, Repr

/-- `generateVideoChunk`: the simulated chunk for one tick; `now` stands
for the wall clock read. `IsKeyframe` is `sequenceNum % 30 == 0` ("every
30th frame is a keyframe"). -/
def generateVideoChunk (streamID : String) (sequenceNum : Nat)
    (quality : VideoQuality) (size : Nat) (now : Int) : VideoChunk :=
  { streamId := streamID
    sequenceNum := sequenceNum
    timestamp := now
    quality := quality
    data := List.replicate size (sequenceNum % 256)
    size := size
    isKeyframe := sequenceNum % 30 == 0
    duration := chunkDuration }

/-- The tick loop of `streamVideo`, unrolled for `k` ticks starting at
sequence number `seq`. The loop generates a chunk at the current
sequence number, sends it, then increments the counter by one; the
session quality may be adapted between ticks (abstracted as `qs`, the
quality in force at each tick) and the wall clock advances (abstracted
as `ts`). `size` is computed once before the loop and never changes. -/
def streamVideoRun (id : String) (size : Nat) (qs : Nat → VideoQuality)
    (ts : Nat → Int) : Nat → Nat → List VideoChunk
  | 0, _ => []
  | k + 1, seq =>
    generateVideoChunk id seq (qs seq) size (ts seq) ::
      streamVideoRun id size qs ts k (seq + 1)

/-- The chunks emitted by the first `k` ticks of a session:
`streamVideo` starts with `sequenceNum := 0`. -/
def streamChunks (id : String) (size : Nat) (qs : Nat → VideoQuality)
    (ts : Nat → Int) (k : Nat) : List VideoChunk :=
  streamVideoRun id size qs ts k 0

end Streaming

namespace Dispatch

/-- The outcome of `handleStream` in the QUIC server: the header read
failed (fewer than 4 bytes available), the stream was closed because no
handler is registered for the protocol, or the registered handler was
invoked. In every case the deferred `stream.Close()` runs. -/
inductive StreamOutcome where
  | headerError
  | closedUnknownProtocol
  | handled (handlerId : Nat)
deriving DecidableEq, Repr

/-- `handleStream` from the QUIC server: read exactly the 4-byte
protocol identifier from the stream's bytes, look it up in the handler
registry (a unique-key map embedded as an association list), and either
close the stream on an unknown protocol or invoke the handler. -/
def handleStream (handlers : List (String × Nat)) (streamBytes : List Char) :
    StreamOutcome :=
  if streamBytes.length < 4 then .headerError
  else
    match handlers.lookup (String.mk (streamBytes.take 4)) with
    | none => .closedUnknownProtocol
    | some h => .handled h

/-- `handleConnection`'s accept loop: every accepted stream is handed to
`handleStream` in its own goroutine, so each outcome is computed
independently of all the others; the loop itself never inspects a
stream's outcome. -/
def handleConnection (handlers : List (String × Nat))
    (streams : List (List Char)) : List StreamOutcome :=
  streams.map (handleStream handlers)

end Dispatch

namespace IoT

/-- `Device` from the IoT handler in the telemetry server source
(timestamps in nanoseconds). -/
structure Device where
  id : String
  typ : String
  location : String
  lastSeen : Int
  online : Bool
deriving DecidableEq, Repr

/-- `SensorData` (the `interface{}` value embedded as `Int`, its
quality as `ℚ`). -/
structure SensorData where
  deviceId : String
  typ : String
  value : Int
  unit : String
  timestamp : Int
  quality : ℚ
deriving DecidableEq, Repr

/-- `Command` (the `interface{}` params embedded as an opaque
string). -/
structure Command where
  id : String
  deviceId : String
  typ : String
  params : String
  priority : Int
deriving DecidableEq, Repr

/-- The response `Message` the handler encodes back to the sender; its
`Data` map is flattened into the `commandId`/`status` fields. -/
structure ResponseMsg where
  typ : String
  deviceId : String
  timestamp : Int
  commandId : String
  status : String
deriving DecidableEq, Repr

/-- The IoT `Handler`'s state: the `devices` map (association list with
unique keys) and the two buffered channels, embedded as lists bounded by
the capacities fixed in `NewHandler`. -/
structure IotState where
  devices : List (String × Device)
  sensorDataChan : List SensorData
  commandChan : List Command
deriving DecidableEq, Repr

/-- Capacity of `sensorDataChan`, fixed in `NewHandler`. -/
def sensorChanCap : Nat := 1000

/-- Capacity of `commandChan`, fixed in `NewHandler`. -/
def commandChanCap : Nat := 100

/-- The `last seen` update both data and heartbeat paths perform on an
already-registered device. -/
def touchDevice (devices : List (String × Device)) (id : String)
    (now : Int) : List (String × Device) :=
  devices.map (fun p =>
    if p.1 == id then (p.1, { p.2 with lastSeen := now, online := true })
    else p)

/-- `handleSensorData` on a well-formed payload: stamp the reading with
the envelope's device id and timestamp, touch the device, then try a
non-blocking channel send — a full channel drops the reading with a
logged warning. Returns the new state, the warnings logged, and the
function's error result, which is `nil` (`none`) on both paths, so the
enclosing `HandleStream` loop always continues. -/
def handleSensorData (s : IotState) (now msgTimestamp : Int)
    (msgDeviceId : String) (sd : SensorData) :
    IotState × List String × Option String :=
  let sd' := { sd with timestamp := msgTimestamp, deviceId := msgDeviceId }
  let devices' := touchDevice s.devices msgDeviceId now
  if s.sensorDataChan.length < sensorChanCap then
    ({ s with
        devices := devices'
        sensorDataChan := s.sensorDataChan ++ [sd'] }, [], none)
  else
    ({ s with devices := devices' },
      ["Sensor data channel full, dropping data"], none)

/-- `handleCommand` on a well-formed payload: stamp the command with the
envelope's device id, try a non-blocking send to the command channel
(a full channel drops the command with a logged warning), then
unconditionally encode a response whose status is `received`. -/
def handleCommand (s : IotState) (now : Int) (msgDeviceId : String)
    (cmd : Command) : IotState × ResponseMsg × List String :=
  let cmd' := { cmd with deviceId := msgDeviceId }
  let (chan', warns) :=
    if s.commandChan.length < commandChanCap then
      (s.commandChan ++ [cmd'], ([] : List String))
    else
      (s.commandChan, ["Command channel full"])
  ({ s with commandChan := chan' },
    { typ := "response", deviceId := msgDeviceId, timestamp := now,
      commandId := cmd'.id, status := "received" }, warns)

/-- One device's update in `StartDeviceMonitor`'s sweep: mark the device
offline exactly when `now - lastSeen > timeout`; nothing else changes. -/
def sweepDevice (now timeout : Int) (d : Device) : Device :=
  if now - d.lastSeen > timeout then { d with online := false } else d

/-- One tick of `StartDeviceMonitor`: apply the staleness check to every
registered device. -/
def sweep (now timeout : Int) (devices : List (String × Device)) :
    List (String × Device) :=
  devices.map (fun p => (p.1, sweepDevice now timeout p.2))

end IoT

namespace Streaming

lemma adapt_hq_eq (b l : ℚ) (i : Fin 4) :
    adaptBitrate handlerQualities (hq i) b l =
      (if b < 3/10 ∨ l > 5/100 then
        hq ⟨i.val - 1, Nat.lt_of_le_of_lt (Nat.sub_le _ _) i.isLt⟩
      else if b > 8/10 ∧ l < 1/100 then
        hq ⟨min (i.val + 1) 3, Nat.lt_succ_of_le (Nat.min_le_right _ 3)⟩
      else hq i) := by
  unfold adaptBitrate
  split_ifs with h1 h2
  · fin_cases i <;> decide
  · fin_cases i <;> decide
  · rfl

/-- Every element the `closestLoop` fold returns is either the initial
accumulator or a ladder element. -/
lemma closestLoop_fst_mem (req : Int) :
    ∀ (l : List VideoQuality) (c : VideoQuality) (m : Int),
      (closestLoop req l c m).1 = c ∨ (closestLoop req l c m).1 ∈ l
  | [], _, _ => Or.inl rfl
  | q :: rest, c, m => by
    simp only [closestLoop]
    split_ifs with h
    · rcases closestLoop_fst_mem req rest q (intAbs (q.bitrate - req)) with h' | h'
      · exact Or.inr (by rw [h']; exact List.mem_cons_self q rest)
      · exact Or.inr (List.mem_cons_of_mem _ h')
    · rcases closestLoop_fst_mem req rest c m with h' | h'
      · exact Or.inl h'
      · exact Or.inr (List.mem_cons_of_mem _ h')

/-- The running minimum of `closestLoop` never increases. -/
lemma closestLoop_snd_le (req : Int) :
    ∀ (l : List VideoQuality) (c : VideoQuality) (m : Int),
      (closestLoop req l c m).2 ≤ m
  | [], _, _ => le_refl _
  | q :: rest, c, m => by
    simp only [closestLoop]
    split_ifs with h
    · exact le_trans (closestLoop_snd_le req rest q _) (le_of_lt h)
    · exact closestLoop_snd_le req rest c m

/-- The final minimum of `closestLoop` is at most every ladder element's
bitrate difference. -/
lemma closestLoop_snd_min (req : Int) :
    ∀ (l : List VideoQuality) (c : VideoQuality) (m : Int),
      ∀ q ∈ l, (closestLoop req l c m).2 ≤ intAbs (q.bitrate - req)
  | [], _, _ => by intro q hq'; cases hq'
  | p :: rest, c, m => by
    intro q hq'
    simp only [closestLoop]
    rcases List.mem_cons.mp hq' with rfl | hmem
    · split_ifs with h
      · exact closestLoop_snd_le req rest q _
      · exact le_trans (closestLoop_snd_le req rest c m) (le_of_not_lt h)
    · split_ifs with h
      · exact closestLoop_snd_min req rest p _ q hmem
      · exact closestLoop_snd_min req rest c m q hmem

/-- Either `closestLoop` returns the accumulator untouched, or its final
minimum is exactly the returned tier's bitrate difference. -/
lemma closestLoop_snd_eq (req : Int) :
    ∀ (l : List VideoQuality) (c : VideoQuality) (m : Int),
      closestLoop req l c m = (c, m) ∨
        (closestLoop req l c m).2 =
          intAbs ((closestLoop req l c m).1.bitrate - req)
  | [], _, _ => Or.inl rfl
  | q :: rest, c, m => by
    simp only [closestLoop]
    split_ifs with h
    · rcases closestLoop_snd_eq req rest q (intAbs (q.bitrate - req)) with h' | h'
      · rw [h']
        exact Or.inr rfl
      · exact Or.inr h'
    · exact closestLoop_snd_eq req rest c m

/-- Successful quality resolution always picks a ladder element. -/
lemma validateQuality_mem (ladder : List VideoQuality) (req c : VideoQuality)
    (h : validateQuality ladder req = some c) : c ∈ ladder := by
  unfold validateQuality at h
  cases hf : ladder.find? (fun q => qualityMatches q req) with
  | some q =>
    rw [hf] at h
    cases h
    exact List.mem_of_find?_eq_some hf
  | none =>
    rw [hf] at h
    simp only at h
    split_ifs at h with hn
    cases h
    rcases closestLoop_fst_mem req.bitrate ladder zeroQuality maxInt with h' | h'
    · rw [h'] at hn
      simp [zeroQuality] at hn
    · exact h'

/-- A successful `find?` splits the list into a prefix on which the
predicate fails everywhere, the found element, and a suffix — the found
element is the FIRST satisfying one in scan order. -/
lemma find?_first_split (p : VideoQuality → Bool) :
    ∀ (l : List VideoQuality) (c : VideoQuality), l.find? p = some c →
      ∃ l1 l2, l = l1 ++ c :: l2 ∧ ∀ q ∈ l1, p q = false
  | [], _, h => by cases h
  | a :: t, c, h => by
    rw [List.find?_cons] at h
    cases hpa : p a with
    | true =>
      rw [hpa] at h
      cases h
      exact ⟨[], t, rfl, fun q hq => by cases hq⟩
    | false =>
      rw [hpa] at h
      obtain ⟨l1, l2, heq, hall⟩ := find?_first_split p t c h
      refine ⟨a :: l1, l2, by rw [heq]; rfl, fun q hq => ?_⟩
      rcases List.mem_cons.mp hq with rfl | hq'
      · exact hpa
      · exact hall q hq'

/-- Successful quality resolution returns either the FIRST tier in scan
order matching the request by name or dimensions (every earlier tier
matches neither way), or (when nothing matches) a tier whose bitrate
difference is minimal over the whole ladder. -/
lemma validateQuality_match_or_min (ladder : List VideoQuality)
    (req c : VideoQuality) (h : validateQuality ladder req = some c) :
    (∃ l1 l2, ladder = l1 ++ c :: l2 ∧ qualityMatches c req = true ∧
        ∀ q ∈ l1, qualityMatches q req = false) ∨
      ∀ q ∈ ladder, qualityMatches q req = false ∧
        intAbs (c.bitrate - req.bitrate) ≤ intAbs (q.bitrate - req.bitrate) := by
  unfold validateQuality at h
  cases hf : ladder.find? (fun q => qualityMatches q req) with
  | some q =>
    rw [hf] at h
    cases h
    have hmatch := List.find?_some hf
    obtain ⟨l1, l2, heq, hall⟩ :=
      find?_first_split (fun q => qualityMatches q req) ladder c hf
    exact Or.inl ⟨l1, l2, heq, by simpa using hmatch, hall⟩
  | none =>
    rw [hf] at h
    simp only at h
    split_ifs at h with hn
    cases h
    refine Or.inr (fun q hq' => ⟨?_, ?_⟩)
    · have := List.find?_eq_none.mp hf q hq'
      simpa using this
    · rcases closestLoop_snd_eq req.bitrate ladder zeroQuality maxInt with h' | h'
      · rw [h'] at hn
        simp [zeroQuality] at hn
      · rw [← h']
        exact closestLoop_snd_min req.bitrate ladder zeroQuality maxInt q hq'

/-- `downScan` only ever returns the seed or a scanned element. -/
lemma downScan_mem (cur : VideoQuality) :
    ∀ (l : List VideoQuality) (prev r : VideoQuality),
      downScan cur prev l = some r → r = prev ∨ r ∈ l
  | [], _, _, h => by cases h
  | q :: rest, prev, r, h => by
    simp only [downScan] at h
    split_ifs at h with hname
    · cases h
      exact Or.inl rfl
    · rcases downScan_mem cur rest q r h with h' | h'
      · exact Or.inr (by rw [h']; exact List.mem_cons_self q rest)
      · exact Or.inr (List.mem_cons_of_mem _ h')

/-- Stepping down from a ladder tier stays in the ladder. -/
lemma getDowngraded_mem (ladder : List VideoQuality) (cur : VideoQuality)
    (h : cur ∈ ladder) : getDowngradedQuality ladder cur ∈ ladder := by
  cases ladder with
  | nil => cases h
  | cons q0 rest =>
    unfold getDowngradedQuality
    show (downScan cur q0 rest).getD cur ∈ q0 :: rest
    cases hscan : downScan cur q0 rest with
    | none =>
      simpa using h
    | some r =>
      simp only [Option.getD_some]
      rcases downScan_mem cur rest q0 r hscan with h' | h'
      · rw [h']
        exact List.mem_cons_self q0 rest
      · exact List.mem_cons_of_mem _ h'

/-- `upScan` only ever returns a scanned element. -/
lemma upScan_mem (cur : VideoQuality) :
    ∀ (l : List VideoQuality) (r : VideoQuality),
      upScan cur l = some r → r ∈ l
  | [], _, h => by cases h
  | [_], _, h => by cases h
  | q :: next :: rest, r, h => by
    simp only [upScan] at h
    split_ifs at h with hname
    · cases h
      exact List.mem_cons_of_mem _ (List.mem_cons_self next rest)
    · exact List.mem_cons_of_mem _ (upScan_mem cur (next :: rest) r h)

/-- Stepping up from a ladder tier stays in the ladder. -/
lemma getUpgraded_mem (ladder : List VideoQuality) (cur : VideoQuality)
    (h : cur ∈ ladder) : getUpgradedQuality ladder cur ∈ ladder := by
  unfold getUpgradedQuality
  cases hscan : upScan cur ladder with
  | none =>
    simpa using h
  | some r =>
    simp only [Option.getD_some]
    exact upScan_mem cur ladder r hscan

/-- One adaptation step maps ladder tiers to ladder tiers. -/
lemma adaptBitrate_mem (ladder : List VideoQuality) (cur : VideoQuality)
    (b l : ℚ) (h : cur ∈ ladder) : adaptBitrate ladder cur b l ∈ ladder := by
  unfold adaptBitrate
  dsimp only
  split_ifs with h1 h2 h3 h4
  · exact getDowngraded_mem ladder cur h
  · exact h
  · exact getUpgraded_mem ladder cur h
  · exact h
  · exact h

/-- Deleting a key from the session index removes it from lookups. -/
lemma lookup_filter_ne (l : List (String × ActiveStream)) (id : String) :
    (l.filter (fun p => p.1 != id)).lookup id = none := by
  induction l with
  | nil => rfl
  | cons p t ih =>
    by_cases h : p.1 = id
    · simp [List.filter_cons, h, ih]
    · simp only [List.filter_cons]
      rw [if_pos (by simpa using h)]
      simp only [List.lookup]
      cases hbe : (id == p.1) with
      | true => exact absurd (beq_iff_eq.mp hbe) (fun he => h he.symm)
      | false => exact ih

/-- The statistics snapshot reports no id the session index lacks. -/
lemma lookup_stats_none (l : List (String × ActiveStream)) (id : String)
    (h : l.lookup id = none) :
    (l.map (fun p => (p.1, p.2.stats))).lookup id = none := by
  induction l with
  | nil => rfl
  | cons p t ih =>
    simp only [List.lookup, List.map_cons] at h ⊢
    cases hbe : (id == p.1) with
    | true =>
      rw [hbe] at h
      cases h
    | false =>
      rw [hbe] at h
      exact ih h

/-- The chunk emitted at position `i` of a run starting at sequence
number `seq` carries sequence number `seq + i`. -/
lemma streamVideoRun_get? (id : String) (size : Nat) (qs : Nat → VideoQuality)
    (ts : Nat → Int) :
    ∀ (k seq i : Nat), i < k →
      (streamVideoRun id size qs ts k seq).get? i =
        some (generateVideoChunk id (seq + i) (qs (seq + i)) size (ts (seq + i)))
  | 0, _, i, h => absurd h (Nat.not_lt_zero i)
  | k + 1, seq, 0, _ => by simp [streamVideoRun]
  | k + 1, seq, i + 1, h => by
    simp only [streamVideoRun, List.get?_cons_succ]
    have hrec := streamVideoRun_get? id size qs ts k (seq + 1) i
      (Nat.lt_of_succ_lt_succ h)
    have harith : seq + 1 + i = seq + (i + 1) := by omega
    rw [harith] at hrec
    exact hrec

/-- A run of `k` ticks emits exactly `k` chunks. -/
lemma streamVideoRun_length (id : String) (size : Nat)
    (qs : Nat → VideoQuality) (ts : Nat → Int) :
    ∀ (k seq : Nat), (streamVideoRun id size qs ts k seq).length = k
  | 0, _ => rfl
  | k + 1, seq => by
    simp only [streamVideoRun, List.length_cons,
      streamVideoRun_length id size qs ts k (seq + 1)]

/-- C1: one evaluation of the adaptation rule on buffer health `b` and
packet loss `l`, with the session at tier `i` of the handler's ladder,
steps down one tier when `b < 0.3` or `l > 0.05` (a no-op at the lowest
tier, index `i - 1` in truncated subtraction), otherwise steps up one
tier when `b > 0.8` and `l < 0.01` (a no-op at the highest tier, index
`min (i+1) 3`), and otherwise leaves the tier unchanged; in every case
the resulting tier's index differs from `i` by at most one. -/
theorem C1_adaptation_single_step (b l : ℚ) (i : Fin 4) :
    adaptBitrate handlerQualities (hq i) b l =
      (if b < 3/10 ∨ l > 5/100 then
        hq ⟨i.val - 1, Nat.lt_of_le_of_lt (Nat.sub_le _ _) i.isLt⟩
      else if b > 8/10 ∧ l < 1/100 then
        hq ⟨min (i.val + 1) 3, Nat.lt_succ_of_le (Nat.min_le_right _ 3)⟩
      else hq i) ∧
    ∃ j : Fin 4, adaptBitrate handlerQualities (hq i) b l = hq j ∧
      (j.val = i.val ∨ j.val + 1 = i.val ∨ j.val = i.val + 1) := by
  refine ⟨adapt_hq_eq b l i, ?_⟩
  rw [adapt_hq_eq b l i]
  by_cases h1 : b < 3/10 ∨ l > 5/100
  · refine ⟨⟨i.val - 1, Nat.lt_of_le_of_lt (Nat.sub_le _ _) i.isLt⟩,
      by rw [if_pos h1], ?_⟩
    simp only [Fin.val_mk]
    omega
  · by_cases h2 : b > 8/10 ∧ l < 1/100
    · refine ⟨⟨min (i.val + 1) 3, Nat.lt_succ_of_le (Nat.min_le_right _ 3)⟩,
        by rw [if_neg h1, if_pos h2], ?_⟩
      have hi := i.isLt
      simp only [Fin.val_mk]
      omega
    · exact ⟨i, by rw [if_neg h1, if_neg h2], Or.inl rfl⟩

/-- Witness for C1: with buffer health 0.1 the session at 720p (tier
index 2) steps down to 480p (tier index 1). -/
theorem C1_adaptation_single_step_witness :
    adaptBitrate handlerQualities (hq 2) (1/10) 0 = hq 1 := by
  rw [(C1_adaptation_single_step (1/10) 0 2).1,
    if_pos (Or.inl (by norm_num))]
  decide

/-- Counterexample to C3: the request named `480p` but with 360p's
dimensions resolves to the `360p` tier, although the ladder holds a tier
named `480p` — an exact name match does not take priority over a
dimension match; the single scan accepts whichever tier matches either
way first. -/
theorem C3_counterexample :
    validateQuality handlerQualities ⟨"480p", 640, 360, 1000, 30⟩ =
      some ⟨"360p", 640, 360, 500, 30⟩ ∧
    (⟨"480p", 854, 480, 1000, 30⟩ : VideoQuality) ∈ handlerQualities ∧
    VideoQuality.name ⟨"480p", 854, 480, 1000, 30⟩ =
      VideoQuality.name ⟨"480p", 640, 360, 1000, 30⟩ ∧
    VideoQuality.name ⟨"360p", 640, 360, 500, 30⟩ ≠
      VideoQuality.name ⟨"480p", 640, 360, 1000, 30⟩ := by
  refine ⟨by decide, by decide, rfl, by decide⟩

/-- C3 as amended: quality resolution returns the FIRST ladder tier in
scan order that matches the request by name or by dimensions — the
ladder decomposes into a prefix in which no tier matches either way,
then the returned tier (so no priority of name over dimensions exists:
an earlier dimension match beats a later name match) — or, when no tier
matches either way, a tier whose absolute bitrate difference from the
requested bitrate is minimal over the whole ladder. -/
theorem C3_amended_nearest_quality (ladder : List VideoQuality)
    (req c : VideoQuality) (h : validateQuality ladder req = some c) :
    c ∈ ladder ∧
      ((∃ l1 l2, ladder = l1 ++ c :: l2 ∧ qualityMatches c req = true ∧
          ∀ q ∈ l1, qualityMatches q req = false) ∨
        ∀ q ∈ ladder, qualityMatches q req = false ∧
          intAbs (c.bitrate - req.bitrate) ≤ intAbs (q.bitrate - req.bitrate)) :=
  ⟨validateQuality_mem ladder req c h,
    validateQuality_match_or_min ladder req c h⟩

/-- Witness for C3 as amended: a request matching no name and no
dimensions, with bitrate 900, resolves to the 480p tier (bitrate 1000,
the closest). -/
theorem C3_amended_nearest_quality_witness :
    (⟨"480p", 854, 480, 1000, 30⟩ : VideoQuality) ∈ handlerQualities ∧
      ((∃ l1 l2, handlerQualities =
          l1 ++ (⟨"480p", 854, 480, 1000, 30⟩ : VideoQuality) :: l2 ∧
          qualityMatches ⟨"480p", 854, 480, 1000, 30⟩ ⟨"unknown", 1, 1, 900, 30⟩ = true ∧
          ∀ q ∈ l1, qualityMatches q ⟨"unknown", 1, 1, 900, 30⟩ = false) ∨
        ∀ q ∈ handlerQualities,
          qualityMatches q ⟨"unknown", 1, 1, 900, 30⟩ = false ∧
          intAbs ((⟨"480p", 854, 480, 1000, 30⟩ : VideoQuality).bitrate -
              (⟨"unknown", 1, 1, 900, 30⟩ : VideoQuality).bitrate) ≤
            intAbs (q.bitrate - (⟨"unknown", 1, 1, 900, 30⟩ : VideoQuality).bitrate)) :=
  C3_amended_nearest_quality handlerQualities ⟨"unknown", 1, 1, 900, 30⟩
    ⟨"480p", 854, 480, 1000, 30⟩ (by decide)

/-- C4: stopping an existing session succeeds (`none` = nil error),
stopping it again returns exactly the `stream not found` error, and the
session index — hence the very next `GetActiveStreams` snapshot — no
longer contains the id after the first call. -/
theorem C4_stop_stream_twice (s : HandlerState) (id : String)
    (h : (s.activeStreams.lookup id).isSome) :
    (StopStream s id).2 = none ∧
    (StopStream (StopStream s id).1 id).2 =
      some ("stream not found: " ++ id) ∧
    ((StopStream s id).1.activeStreams.lookup id) = none ∧
    (GetActiveStreams (StopStream s id).1).lookup id = none := by
  obtain ⟨a, ha⟩ := Option.isSome_iff_exists.mp h
  have h1 : StopStream s id =
      (⟨s.activeStreams.filter (fun p => p.1 != id)⟩, none) := by
    unfold StopStream
    rw [ha]
  have hlk : ((StopStream s id).1.activeStreams).lookup id = none := by
    rw [h1]
    exact lookup_filter_ne s.activeStreams id
  have h3 : StopStream ⟨s.activeStreams.filter (fun p => p.1 != id)⟩ id =
      (⟨s.activeStreams.filter (fun p => p.1 != id)⟩,
        some ("stream not found: " ++ id)) := by
    unfold StopStream
    rw [lookup_filter_ne]
  refine ⟨by rw [h1], ?_, hlk, ?_⟩
  · rw [h1]
    show (StopStream ⟨s.activeStreams.filter (fun p => p.1 != id)⟩ id).2 =
      some ("stream not found: " ++ id)
    rw [h3]
  · unfold GetActiveStreams
    exact lookup_stats_none _ _ hlk

/-- Witness for C4 on a one-session index. -/
theorem C4_stop_stream_twice_witness :
    (StopStream ⟨[("s1", ⟨"s1", ⟨"720p", 1280, 720, 2000, 30⟩, 0,
        ⟨"s1", 0, 0, 0, 0, 0, 0, 0⟩, true⟩)]⟩ "s1").2 = none ∧
    (StopStream (StopStream ⟨[("s1", ⟨"s1", ⟨"720p", 1280, 720, 2000, 30⟩, 0,
        ⟨"s1", 0, 0, 0, 0, 0, 0, 0⟩, true⟩)]⟩ "s1").1 "s1").2 =
      some ("stream not found: " ++ "s1") ∧
    ((StopStream ⟨[("s1", ⟨"s1", ⟨"720p", 1280, 720, 2000, 30⟩, 0,
        ⟨"s1", 0, 0, 0, 0, 0, 0, 0⟩, true⟩)]⟩ "s1").1.activeStreams.lookup "s1") = none ∧
    (GetActiveStreams (StopStream ⟨[("s1", ⟨"s1", ⟨"720p", 1280, 720, 2000, 30⟩, 0,
        ⟨"s1", 0, 0, 0, 0, 0, 0, 0⟩, true⟩)]⟩ "s1").1).lookup "s1" = none :=
  C4_stop_stream_twice _ "s1" (by decide)

/-- C5: within one session the chunk emitted at loop position `i`
carries sequence number exactly `i` (so the sequence runs 0, 1, 2, …
with no gaps or repeats, each successor chunk's number one larger), and
its keyframe flag is set exactly when the sequence number is divisible
by the keyframe interval 30. -/
theorem C5_sequence_and_keyframes (id : String) (size : Nat)
    (qs : Nat → VideoQuality) (ts : Nat → Int) (k i : Nat) (h : i < k) :
    ∃ c : VideoChunk,
      (streamChunks id size qs ts k).get? i = some c ∧
      c.sequenceNum = i ∧
      c.isKeyframe = (i % 30 == 0) ∧
      ∀ c2, (streamChunks id size qs ts k).get? (i + 1) = some c2 →
        c2.sequenceNum = c.sequenceNum + 1 := by
  refine ⟨generateVideoChunk id i (qs i) size (ts i), ?_, rfl, rfl, ?_⟩
  · have hg := streamVideoRun_get? id size qs ts k 0 i h
    simpa [streamChunks] using hg
  · intro c2 h2
    by_cases hik : i + 1 < k
    · have hg := streamVideoRun_get? id size qs ts k 0 (i + 1) hik
      simp only [Nat.zero_add] at hg
      simp only [streamChunks] at h2
      rw [hg] at h2
      cases h2
      rfl
    · have hnone : (streamVideoRun id size qs ts k 0).get? (i + 1) = none := by
        apply List.get?_eq_none.mpr
        rw [streamVideoRun_length]
        omega
      simp only [streamChunks] at h2
      rw [hnone] at h2
      cases h2

/-- Witness for C5: the 31st chunk of a 40-tick run has sequence number
30 and is a keyframe. -/
theorem C5_sequence_and_keyframes_witness :
    ∃ c : VideoChunk,
      (streamChunks "s1" 5 (fun _ => ⟨"720p", 1280, 720, 2000, 30⟩)
        (fun _ => 0) 40).get? 30 = some c ∧
      c.sequenceNum = 30 ∧
      c.isKeyframe = (30 % 30 == 0) ∧
      ∀ c2, (streamChunks "s1" 5 (fun _ => ⟨"720p", 1280, 720, 2000, 30⟩)
          (fun _ => 0) 40).get? (30 + 1) = some c2 →
        c2.sequenceNum = c.sequenceNum + 1 :=
  C5_sequence_and_keyframes "s1" 5 (fun _ => ⟨"720p", 1280, 720, 2000, 30⟩)
    (fun _ => 0) 40 30 (by omega)

/-- C10: a successfully resolved handshake tier is drawn from the
ladder, and from a tier in the ladder every downgrade step, upgrade
step, and full adaptation step lands in the ladder again — no session
ever holds a quality outside the ladder. -/
theorem C10_quality_in_ladder (ladder : List VideoQuality)
    (req current c : VideoQuality)
    (hv : validateQuality ladder req = some c) (hc : current ∈ ladder) :
    c ∈ ladder ∧
    getDowngradedQuality ladder current ∈ ladder ∧
    getUpgradedQuality ladder current ∈ ladder ∧
    ∀ b l : ℚ, adaptBitrate ladder current b l ∈ ladder :=
  ⟨validateQuality_mem ladder req c hv,
    getDowngraded_mem ladder current hc,
    getUpgraded_mem ladder current hc,
    fun b l => adaptBitrate_mem ladder current b l hc⟩

/-- Witness for C10 on the handler's ladder: a resolved 720p request and
a 480p session. -/
theorem C10_quality_in_ladder_witness :
    (⟨"720p", 1280, 720, 2000, 30⟩ : VideoQuality) ∈ handlerQualities ∧
    getDowngradedQuality handlerQualities ⟨"480p", 854, 480, 1000, 30⟩ ∈
      handlerQualities ∧
    getUpgradedQuality handlerQualities ⟨"480p", 854, 480, 1000, 30⟩ ∈
      handlerQualities ∧
    ∀ b l : ℚ, adaptBitrate handlerQualities ⟨"480p", 854, 480, 1000, 30⟩ b l ∈
      handlerQualities :=
  C10_quality_in_ladder handlerQualities ⟨"720p", 1280, 720, 2000, 30⟩
    ⟨"480p", 854, 480, 1000, 30⟩ ⟨"720p", 1280, 720, 2000, 30⟩
    (by decide) (by decide)

end Streaming

namespace Dispatch

/-- C7: when the 4-byte protocol identifier read from a stream matches
no registered handler, the dispatcher closes that stream without
invoking any handler, and the connection's accept loop is unaffected:
every accepted stream — including every stream after the failing one —
still gets its own independent outcome, so the unknown-protocol failure
is local to the one stream. -/
theorem C7_unknown_protocol_is_local (handlers : List (String × Nat))
    (streams : List (List Char)) (i : Nat) (s : List Char)
    (hi : streams.get? i = some s) (hlen : 4 ≤ s.length)
    (hun : handlers.lookup (String.mk (s.take 4)) = none) :
    (handleConnection handlers streams).get? i =
      some StreamOutcome.closedUnknownProtocol ∧
    (∀ hid : Nat, handleStream handlers s ≠ StreamOutcome.handled hid) ∧
    (handleConnection handlers streams).length = streams.length ∧
    (∀ j t, streams.get? j = some t →
      (handleConnection handlers streams).get? j =
        some (handleStream handlers t)) := by
  have hs : handleStream handlers s = StreamOutcome.closedUnknownProtocol := by
    unfold handleStream
    rw [if_neg (by omega), hun]
  refine ⟨?_, ?_, ?_, ?_⟩
  · unfold handleConnection
    rw [List.get?_map, hi]
    exact congrArg some hs
  · intro hid hcontra
    rw [hs] at hcontra
    cases hcontra
  · exact List.length_map streams (handleStream handlers)
  · intro j t hj
    unfold handleConnection
    rw [List.get?_map, hj]
    rfl

/-- Witness for C7: a registry holding only `STRM`, a connection whose
first stream announces the unregistered identifier `IOTX` and whose
second announces `STRM`. -/
theorem C7_unknown_protocol_is_local_witness :
    (handleConnection [("STRM", 0)]
      [['I', 'O', 'T', 'X'], ['S', 'T', 'R', 'M']]).get? 0 =
      some StreamOutcome.closedUnknownProtocol ∧
    (∀ hid : Nat, handleStream [("STRM", 0)] ['I', 'O', 'T', 'X'] ≠
      StreamOutcome.handled hid) ∧
    (handleConnection [("STRM", 0)]
      [['I', 'O', 'T', 'X'], ['S', 'T', 'R', 'M']]).length =
      ([['I', 'O', 'T', 'X'], ['S', 'T', 'R', 'M']] : List (List Char)).length ∧
    (∀ j t, ([['I', 'O', 'T', 'X'], ['S', 'T', 'R', 'M']] :
        List (List Char)).get? j = some t →
      (handleConnection [("STRM", 0)]
        [['I', 'O', 'T', 'X'], ['S', 'T', 'R', 'M']]).get? j =
        some (handleStream [("STRM", 0)] t)) :=
  C7_unknown_protocol_is_local [("STRM", 0)]
    [['I', 'O', 'T', 'X'], ['S', 'T', 'R', 'M']] 0 ['I', 'O', 'T', 'X']
    (by decide) (by decide) (by decide)

end Dispatch

namespace IoT

/-- A command-queue state at capacity: 100 queued commands. -/
def fullCommandState : IotState :=
  { devices := []
    sensorDataChan := []
    commandChan := List.replicate 100 ⟨"c0", "d0", "noop", "", 1⟩ }

/-- A sensor-queue state at capacity: 1000 queued readings. -/
def fullSensorState : IotState :=
  { devices := []
    sensorDataChan := List.replicate 1000 ⟨"d0", "temperature", 20, "C", 0, 1⟩
    commandChan := [] }

/-- Counterexample to C2: with the command queue full, processing a
command DROPS it (the queue is unchanged, only a warning is logged) and
the handler still responds with status `received` — exactly the status
of the success path — so the sender sees no rejection. -/
theorem C2_counterexample :
    (handleCommand fullCommandState 0 "dev1" ⟨"c1", "", "reboot", "", 5⟩).2.1.status =
      "received" ∧
    (handleCommand fullCommandState 0 "dev1" ⟨"c1", "", "reboot", "", 5⟩).1.commandChan =
      fullCommandState.commandChan ∧
    (handleCommand fullCommandState 0 "dev1" ⟨"c1", "", "reboot", "", 5⟩).2.2 =
      ["Command channel full"] ∧
    (handleCommand ⟨[], [], []⟩ 0 "dev1" ⟨"c1", "", "reboot", "", 5⟩).2.1.status =
      "received" :=
  ⟨rfl, rfl, rfl, rfl⟩

/-- C2 as amended: the handler's response status is `received` no
matter what; when the queue (capacity 100) has room the command is
enqueued with no warning, and when it is full the command is dropped
with only the `Command channel full` warning — there is no rejection
response. -/
theorem C2_amended_always_received (s : IotState) (now : Int)
    (did : String) (c : Command) :
    (handleCommand s now did c).2.1.status = "received" ∧
    (s.commandChan.length < commandChanCap →
      (handleCommand s now did c).1.commandChan =
        s.commandChan ++ [{ c with deviceId := did }] ∧
      (handleCommand s now did c).2.2 = []) ∧
    (commandChanCap ≤ s.commandChan.length →
      (handleCommand s now did c).1.commandChan = s.commandChan ∧
      (handleCommand s now did c).2.2 = ["Command channel full"]) := by
  unfold handleCommand
  dsimp only
  split_ifs with hlen
  · exact ⟨rfl, fun _ => ⟨rfl, rfl⟩, fun hge => absurd hlen (by omega)⟩
  · exact ⟨rfl, fun hlt => absurd hlt hlen, fun _ => ⟨rfl, rfl⟩⟩

/-- Witness for C2 as amended, at the full queue. -/
theorem C2_amended_always_received_witness :
    (handleCommand fullCommandState 3 "dev2" ⟨"c2", "", "stop", "", 2⟩).2.1.status =
      "received" ∧
    (handleCommand fullCommandState 3 "dev2" ⟨"c2", "", "stop", "", 2⟩).1.commandChan =
      fullCommandState.commandChan ∧
    (handleCommand fullCommandState 3 "dev2" ⟨"c2", "", "stop", "", 2⟩).2.2 =
      ["Command channel full"] := by
  have h := C2_amended_always_received fullCommandState 3 "dev2" ⟨"c2", "", "stop", "", 2⟩
  have hfull : commandChanCap ≤ fullCommandState.commandChan.length := by
    show commandChanCap ≤ (List.replicate 100 _).length
    rw [List.length_replicate]
    exact le_refl _
  exact ⟨h.1, (h.2.2 hfull).1, (h.2.2 hfull).2⟩

set_option maxRecDepth 100000 in
/-- Counterexample to C6: with the sensor-data queue full, processing a
best-effort reading from an unregistered device leaves the handler state
COMPLETELY unchanged — no drop counter exists, let alone is incremented;
the only trace of the drop is the logged warning. -/
theorem C6_counterexample :
    handleSensorData fullSensorState 5 3 "devX" ⟨"", "", 0, "", 0, 0⟩ =
      (fullSensorState, ["Sensor data channel full, dropping data"], none) :=
  rfl

/-- C6 as amended: on a full sensor-data queue the reading is dropped
without blocking (the queue and command queue are unchanged, the device
registry only gets its usual last-seen touch), the drop is recorded only
as the logged `Sensor data channel full, dropping data` warning — no
drop counter exists in the handler — and the function still returns
`nil`, so the handler's stream loop continues normally. -/
theorem C6_amended_drop_logged_not_counted (s : IotState)
    (now msgTimestamp : Int) (did : String) (sd : SensorData)
    (h : sensorChanCap ≤ s.sensorDataChan.length) :
    (handleSensorData s now msgTimestamp did sd).1.sensorDataChan =
      s.sensorDataChan ∧
    (handleSensorData s now msgTimestamp did sd).1.commandChan =
      s.commandChan ∧
    (handleSensorData s now msgTimestamp did sd).1.devices =
      touchDevice s.devices did now ∧
    (handleSensorData s now msgTimestamp did sd).2.1 =
      ["Sensor data channel full, dropping data"] ∧
    (handleSensorData s now msgTimestamp did sd).2.2 = none := by
  unfold handleSensorData
  dsimp only
  rw [if_neg (by omega)]
  exact ⟨rfl, rfl, rfl, rfl, rfl⟩

/-- Witness for C6 as amended, at the full queue. -/
theorem C6_amended_drop_logged_not_counted_witness :
    (handleSensorData fullSensorState 5 3 "devX" ⟨"", "", 0, "", 0, 0⟩).1.sensorDataChan =
      fullSensorState.sensorDataChan ∧
    (handleSensorData fullSensorState 5 3 "devX" ⟨"", "", 0, "", 0, 0⟩).1.commandChan =
      fullSensorState.commandChan ∧
    (handleSensorData fullSensorState 5 3 "devX" ⟨"", "", 0, "", 0, 0⟩).1.devices =
      touchDevice fullSensorState.devices "devX" 5 ∧
    (handleSensorData fullSensorState 5 3 "devX" ⟨"", "", 0, "", 0, 0⟩).2.1 =
      ["Sensor data channel full, dropping data"] ∧
    (handleSensorData fullSensorState 5 3 "devX" ⟨"", "", 0, "", 0, 0⟩).2.2 = none :=
  C6_amended_drop_logged_not_counted fullSensorState 5 3 "devX" ⟨"", "", 0, "", 0, 0⟩
    (by show sensorChanCap ≤ (List.replicate 1000 _).length
        rw [List.length_replicate]
        exact le_refl _)

/-- C8: a sweep at time `now` with timeout `T` sets a device's online
flag to false exactly when `now - lastSeen > T` and changes no other
field (nor any registry key); when nothing is stale the sweep is the
identity on the registry; concretely, with `T = 30` a device last seen
at 0 is marked offline by a sweep at 31 and left online by a sweep at
10. -/
theorem C8_sweep_staleness (now timeout : Int)
    (devices : List (String × Device)) :
    (∀ d : Device,
      (sweepDevice now timeout d).online =
        (if now - d.lastSeen > timeout then false else d.online) ∧
      (sweepDevice now timeout d).id = d.id ∧
      (sweepDevice now timeout d).typ = d.typ ∧
      (sweepDevice now timeout d).location = d.location ∧
      (sweepDevice now timeout d).lastSeen = d.lastSeen) ∧
    (sweep now timeout devices).map Prod.fst = devices.map Prod.fst ∧
    ((∀ p ∈ devices, now - p.2.lastSeen ≤ timeout) →
      sweep now timeout devices = devices) ∧
    (sweepDevice 31 30 ⟨"dev", "temperature", "lab", 0, true⟩).online = false ∧
    (sweepDevice 10 30 ⟨"dev", "temperature", "lab", 0, true⟩).online = true := by
  refine ⟨?_, ?_, ?_, by decide, by decide⟩
  · intro d
    unfold sweepDevice
    split_ifs <;> exact ⟨rfl, rfl, rfl, rfl, rfl⟩
  · unfold sweep
    rw [List.map_map]
    rfl
  · intro hfresh
    unfold sweep
    induction devices with
    | nil => rfl
    | cons p t ih =>
      have hp : sweepDevice now timeout p.2 = p.2 := by
        unfold sweepDevice
        rw [if_neg (not_lt.mpr (hfresh p (List.mem_cons_self p t)))]
      simp only [List.map_cons, hp,
        ih (fun q hq => hfresh q (List.mem_cons_of_mem p hq))]

end IoT
